import Mathlib

/-!
Shallow embedding of the narrative progression state machine of the
`potato` repository (`src/systems/OrbSystem.ts`, class `NarrativeSystem`,
together with the configuration constants of `Settings.gameplay`).

JavaScript numbers are modelled as rationals (`ℚ`); the constants involved
(0.001, 0.0005, 0.05, 0.33, 0.66, 0.2, 0.3, 0.1, 0.8, 0.5, 0.9, 5) are
written as exact fractions.  `EventBus.emit` calls are modelled by
returning a list of emitted events alongside the updated state.
-/

namespace Potato

/-- `enum Zone` from `src/types/index.ts`. -/
inductive Zone where
  | VOID
  | AWAKENING
  | TRANSCENDENCE
deriving DecidableEq, Repr

/-- `enum Ending` from `src/types/index.ts`. -/
inductive Ending where
  | DISSOLUTION
  | ACCEPTANCE
  | TRANSCENDENCE
  | REBELLION
deriving DecidableEq, Repr

/-- The `consequences` field of `interface Choice` (`src/types/index.ts`):
all three entries are optional. -/
structure Consequences where
  consciousness : Option ℚ
  fulfillment : Option ℚ
  ending : Option Ending
deriving DecidableEq, Repr

/-- `interface Choice` from `src/types/index.ts`. -/
structure Choice where
  id : String
  text : String
  consequences : Consequences
deriving DecidableEq, Repr

/-- `interface PlayerState` from `src/types/index.ts`. -/
structure PlayerState where
  consciousness : ℚ
  fulfillment : ℚ
  currentZone : Zone
  choices : List String
  discoveredGlitches : ℕ
  timeElapsed : ℚ
deriving DecidableEq, Repr

/-- `Settings.gameplay.progressionSpeed.consciousness = 0.001`. -/
def consciousnessRate : ℚ := 1 / 1000

/-- `Settings.gameplay.progressionSpeed.fulfillment = 0.0005`. -/
def fulfillmentRate : ℚ := 1 / 2000

/-- `Settings.gameplay.zones.awakening.fulfillmentThreshold = 0.33`. -/
def awakeningThreshold : ℚ := 33 / 100

/-- `Settings.gameplay.zones.transcendence.fulfillmentThreshold = 0.66`. -/
def transcendenceThreshold : ℚ := 66 / 100

/-- First entry of the catalog built by `NarrativeSystem.setupChoices`. -/
def choice_accept_reality : Choice :=
  { id := "accept_reality"
    text := "Accept the simulation as reality"
    consequences :=
      { fulfillment := some (2 / 10)
        consciousness := some (-(1 / 10))
        ending := some Ending.ACCEPTANCE } }

/-- Second entry of the catalog built by `NarrativeSystem.setupChoices`. -/
def choice_reject_simulation : Choice :=
  { id := "reject_simulation"
    text := "Rebel against the constraints"
    consequences :=
      { fulfillment := some (-(1 / 10))
        consciousness := some (3 / 10)
        ending := some Ending.REBELLION } }

/-- Third entry of the catalog built by `NarrativeSystem.setupChoices`. -/
def choice_transcend : Choice :=
  { id := "transcend"
    text := "Seek to transcend both real and simulated"
    consequences :=
      { fulfillment := some (3 / 10)
        consciousness := some (3 / 10)
        ending := some Ending.TRANSCENDENCE } }

/-- Fourth entry of the catalog built by `NarrativeSystem.setupChoices`. -/
def choice_dissolve : Choice :=
  { id := "dissolve"
    text := "Let go of the search for meaning"
    consequences :=
      { fulfillment := some (1 / 10)
        consciousness := some (1 / 10)
        ending := some Ending.DISSOLUTION } }

/-- `NarrativeSystem.availableChoices`, the static four-entry catalog set up
once by `setupChoices` (the field holds the full catalog; the zone-dependent
offering is computed by `getAvailableChoices`). -/
def availableChoices : List Choice :=
  [choice_accept_reality, choice_reject_simulation, choice_transcend, choice_dissolve]

/-- The events the `NarrativeSystem` publishes on the `EventBus`
(channels `narrative:zone_change`, `audio:play_transition`,
`narrative:choice_made`, `narrative:glitch_discovered`, `narrative:ending`). -/
inductive Emit where
  | zone_change (zone : Zone)
  | play_transition (zone : Zone)
  | choice_made (choice : Choice) (consequences : Consequences)
  | glitch_discovered (count : ℕ)
  | ending (e : Ending) (state : PlayerState)
deriving DecidableEq, Repr

/-- The mutable fields of class `NarrativeSystem`: the player state plus the
cached `currentZone` field (the class keeps its own copy next to
`state.currentZone`). -/
structure NarrState where
  state : PlayerState
  currentZone : Zone
deriving DecidableEq, Repr

/-- The state built by the `NarrativeSystem` constructor: all-zero
`PlayerState`, zone `VOID`. -/
def initNarrState : NarrState :=
  { state :=
      { consciousness := 0
        fulfillment := 0
        currentZone := Zone.VOID
        choices := []
        discoveredGlitches := 0
        timeElapsed := 0 }
    currentZone := Zone.VOID }

/-- `NarrativeSystem.checkZoneTransition`.  Computes the candidate new zone,
and when it differs from the cached zone, updates both zone fields and emits
`narrative:zone_change` and `audio:play_transition`. -/
def checkZoneTransition (s : NarrState) : NarrState × List Emit :=
  let newZone :=
    if s.state.fulfillment ≥ transcendenceThreshold ∧ s.currentZone ≠ Zone.TRANSCENDENCE then
      Zone.TRANSCENDENCE
    else if s.state.fulfillment ≥ awakeningThreshold ∧ s.currentZone = Zone.VOID then
      Zone.AWAKENING
    else
      s.currentZone
  if newZone ≠ s.currentZone then
    ({ state := { s.state with currentZone := newZone }, currentZone := newZone },
      [Emit.zone_change newZone, Emit.play_transition newZone])
  else
    (s, [])

/-- The `// Default ending logic` if-chain of `NarrativeSystem.triggerEnding`,
probed in source order: REBELLION, ACCEPTANCE, TRANSCENDENCE, DISSOLUTION. -/
def defaultEnding (consciousness fulfillment : ℚ) : Ending :=
  if consciousness > 8 / 10 ∧ fulfillment < 5 / 10 then Ending.REBELLION
  else if fulfillment > 8 / 10 ∧ consciousness < 5 / 10 then Ending.ACCEPTANCE
  else if consciousness > 8 / 10 ∧ fulfillment > 8 / 10 then Ending.TRANSCENDENCE
  else Ending.DISSOLUTION

/-- The catalog lookup of the most recent recorded choice inside
`triggerEnding`: `choices[choices.length - 1]` is `undefined` on an empty
history, and `find` with an `undefined` needle matches no catalog id. -/
def lookupLastChoice (st : PlayerState) : Option Choice :=
  st.choices.getLast?.bind
    (fun lastChoice => availableChoices.find? (fun c => c.id == lastChoice))

/-- The `let ending` block of `NarrativeSystem.triggerEnding`: if the last
recorded choice exists in the catalog and carries an ending, use it;
otherwise fall through to the default chain. -/
def computeEnding (st : PlayerState) : Ending :=
  match lookupLastChoice st with
  | some c =>
    match c.consequences.ending with
    | some e => e
    | none => defaultEnding st.consciousness st.fulfillment
  | none => defaultEnding st.consciousness st.fulfillment

/-- `NarrativeSystem.triggerEnding`: determines the ending and emits
`narrative:ending` with the ending and the current player state.  The state
itself is not modified, and nothing records that an ending already fired. -/
def triggerEnding (s : NarrState) : NarrState × List Emit :=
  (s, [Emit.ending (computeEnding s.state) s.state])

/-- `NarrativeSystem.update(deltaTime)`: accumulates `timeElapsed`, adds the
fixed progression rates to consciousness and fulfillment, clamps both from
above at 1 (`Math.min(1, …)` — there is no lower clamp), runs the zone
transition check, and triggers the ending whenever fulfillment or
consciousness has reached 1. -/
def update (dt : ℚ) (s : NarrState) : NarrState × List Emit :=
  let st := s.state
  let st := { st with timeElapsed := st.timeElapsed + dt }
  let st := { st with
    consciousness := st.consciousness + consciousnessRate
    fulfillment := st.fulfillment + fulfillmentRate }
  let st := { st with
    consciousness := min 1 st.consciousness
    fulfillment := min 1 st.fulfillment }
  let r := checkZoneTransition { s with state := st }
  if r.1.state.fulfillment ≥ 1 ∨ r.1.state.consciousness ≥ 1 then
    let r2 := triggerEnding r.1
    (r2.1, r.2 ++ r2.2)
  else
    r

/-- `NarrativeSystem.makeChoice(choiceId)`: looks the id up in the full
catalog; absent ids are a silent no-op.  Present ids have their deltas added
(the `if (choice.consequences.consciousness)` truthiness guard skips a
missing or zero delta — no clamping happens here), the id appended to the
history, and one `narrative:choice_made` event emitted. -/
def makeChoice (choiceId : String) (s : NarrState) : NarrState × List Emit :=
  match availableChoices.find? (fun c => c.id == choiceId) with
  | none => (s, [])
  | some choice =>
    let st := s.state
    let st :=
      match choice.consequences.consciousness with
      | some d => if d ≠ 0 then { st with consciousness := st.consciousness + d } else st
      | none => st
    let st :=
      match choice.consequences.fulfillment with
      | some d => if d ≠ 0 then { st with fulfillment := st.fulfillment + d } else st
      | none => st
    let st := { st with choices := st.choices ++ [choiceId] }
    ({ s with state := st }, [Emit.choice_made choice choice.consequences])

/-- `NarrativeSystem.onGlitchDiscovered()`: increments the glitch counter,
adds 0.05 to consciousness (no clamping), and emits
`narrative:glitch_discovered` with the new count. -/
def onGlitchDiscovered (s : NarrState) : NarrState × List Emit :=
  let st := { s.state with discoveredGlitches := s.state.discoveredGlitches + 1 }
  let st := { st with consciousness := st.consciousness + 1 / 20 }
  ({ s with state := st }, [Emit.glitch_discovered st.discoveredGlitches])

/-- Message list of `NarrativeSystem.getVoidMessage`. -/
def voidMessages : List String :=
  ["The simulation awakens...",
   "Patterns emerge from the void...",
   "What is real?",
   "Consciousness stirs in the digital expanse..."]

/-- Message list of `NarrativeSystem.getAwakeningMessage`. -/
def awakeningMessages : List String :=
  ["Patterns emerge from chaos...",
   "The grid responds to your presence...",
   "Awareness grows...",
   "You are not alone in this space..."]

/-- Message list of `NarrativeSystem.getTranscendenceMessage`. -/
def transcendenceMessages : List String :=
  ["Meaning crystallizes...",
   "The boundaries between real and simulated blur...",
   "Understanding flows through the network...",
   "You are becoming something more..."]

/-- The indexing `messages[Math.floor(timeElapsed / 5) % messages.length]`
shared by the three band message helpers (for the non-negative `timeElapsed`
values the game produces, JS `%` agrees with natural-number `%`). -/
def bandMessage (messages : List String) (timeElapsed : ℚ) : String :=
  messages.getD ((Int.toNat ⌊timeElapsed / 5⌋) % messages.length) ""

/-- `NarrativeSystem.getMessage`: selects a band on fulfillment
(0.3 / 0.6 / 0.9) and cycles through the band's messages. -/
def getMessage (st : PlayerState) : String :=
  if st.fulfillment < 3 / 10 then bandMessage voidMessages st.timeElapsed
  else if st.fulfillment < 6 / 10 then bandMessage awakeningMessages st.timeElapsed
  else if st.fulfillment < 9 / 10 then bandMessage transcendenceMessages st.timeElapsed
  else "Fulfillment achieved. Or is it?"

/-- `NarrativeSystem.getAvailableChoices`: the zone-dependent window
`slice(0, 2)` / `slice(1, 3)` / full catalog. -/
def getAvailableChoices (s : NarrState) : List Choice :=
  if s.currentZone = Zone.VOID then
    (availableChoices.drop 0).take 2
  else if s.currentZone = Zone.AWAKENING then
    (availableChoices.drop 1).take 2
  else
    availableChoices

/-- One externally triggerable mutating operation of the `NarrativeSystem`:
a frame update, a player choice, or a glitch discovery. -/
inductive Op where
  | update (dt : ℚ)
  | makeChoice (id : String)
  | glitch
deriving DecidableEq, Repr

/-- Dispatch one operation. -/
def step (s : NarrState) : Op → NarrState × List Emit
  | Op.update dt => update dt s
  | Op.makeChoice id => makeChoice id s
  | Op.glitch => onGlitchDiscovered s

/-- Run a sequence of operations, concatenating the emitted events. -/
def run (ops : List Op) (s : NarrState) : NarrState × List Emit :=
  match ops with
  | [] => (s, [])
  | op :: rest =>
    let r1 := step s op
    let r2 := run rest r1.1
    (r2.1, r1.2 ++ r2.2)

/-- Number of `narrative:ending` emissions in an event list. -/
def countEnding (evs : List Emit) : ℕ :=
  (evs.filter fun e =>
    match e with
    | Emit.ending _ _ => true
    | _ => false).length

/-- The ordering VOID < AWAKENING < TRANSCENDENCE on zones. -/
def zoneIdx : Zone → ℕ
  | Zone.VOID => 0
  | Zone.AWAKENING => 1
  | Zone.TRANSCENDENCE => 2

/-- Both progress scalars lie in the closed interval [0,1]. -/
def scalarsInRange (s : NarrState) : Prop :=
  0 ≤ s.state.consciousness ∧ s.state.consciousness ≤ 1 ∧
    0 ≤ s.state.fulfillment ∧ s.state.fulfillment ≤ 1

/-- The ending fallback rule as the specification words it: both > 0.8 gives
TRANSCENDENCE; consciousness > 0.8 and fulfillment < 0.5 gives REBELLION;
fulfillment > 0.8 and consciousness < 0.5 gives ACCEPTANCE; every other case
DISSOLUTION.  To be compared with `defaultEnding`, which probes the cases in
the source's order. -/
def spec_fallbackEnding (consciousness fulfillment : ℚ) : Ending :=
  if consciousness > 8 / 10 ∧ fulfillment > 8 / 10 then Ending.TRANSCENDENCE
  else if consciousness > 8 / 10 ∧ fulfillment < 5 / 10 then Ending.REBELLION
  else if fulfillment > 8 / 10 ∧ consciousness < 5 / 10 then Ending.ACCEPTANCE
  else Ending.DISSOLUTION

/-- The Message Selector as the specification words it: a function of
fulfillment (bands split at 0.3 / 0.6 / 0.9) and timeElapsed alone; within
the first three bands the list entry at index
`floor(timeElapsed / 5) mod (list length)`, and a fixed closing string in
the last band.  To be compared with `getMessage`. -/
def spec_currentMessage (fulfillment timeElapsed : ℚ) : String :=
  if fulfillment < 3 / 10 then
    voidMessages.getD (Int.toNat ⌊timeElapsed / 5⌋ % voidMessages.length) ""
  else if fulfillment < 6 / 10 then
    awakeningMessages.getD (Int.toNat ⌊timeElapsed / 5⌋ % awakeningMessages.length) ""
  else if fulfillment < 9 / 10 then
    transcendenceMessages.getD (Int.toNat ⌊timeElapsed / 5⌋ % transcendenceMessages.length) ""
  else
    "Fulfillment achieved. Or is it?"

/-- The first phase of `update` written as a single record update. -/
def updateScalars (dt : ℚ) (s : NarrState) : NarrState :=
  { s with state := { s.state with
      timeElapsed := s.state.timeElapsed + dt
      consciousness := min 1 (s.state.consciousness + consciousnessRate)
      fulfillment := min 1 (s.state.fulfillment + fulfillmentRate) } }

/-- A mid-game state with both scalars at 0.1 (spec scenario 3). -/
def exampleTenthState : NarrState :=
  { state :=
      { consciousness := 1 / 10
        fulfillment := 1 / 10
        currentZone := Zone.VOID
        choices := []
        discoveredGlitches := 0
        timeElapsed := 0 }
    currentZone := Zone.VOID }

/-- A saturated state: consciousness already at 1. -/
def exampleSaturatedState : NarrState :=
  { state :=
      { consciousness := 1
        fulfillment := 0
        currentZone := Zone.VOID
        choices := []
        discoveredGlitches := 0
        timeElapsed := 0 }
    currentZone := Zone.VOID }

/-- Player state with consciousness 0.9, fulfillment 0.3 and an empty choice
history (spec scenario 5). -/
def exampleRebellionState : PlayerState :=
  { consciousness := 9 / 10
    fulfillment := 3 / 10
    currentZone := Zone.VOID
    choices := []
    discoveredGlitches := 0
    timeElapsed := 0 }

/-- Player state whose last recorded choice is `transcend`
(spec scenario 4). -/
def exampleTranscendState : PlayerState :=
  { consciousness := 0
    fulfillment := 1
    currentZone := Zone.VOID
    choices := ["transcend"]
    discoveredGlitches := 0
    timeElapsed := 0 }

/-! ### Helper lemmas -/

/-- `checkZoneTransition` either leaves the state alone and emits nothing, or
moves both zone fields strictly upward and emits exactly the zone-change
pair of events. -/
theorem checkZoneTransition_cases (s : NarrState) :
    checkZoneTransition s = (s, []) ∨
      ∃ z, zoneIdx s.currentZone < zoneIdx z ∧
        checkZoneTransition s =
          ({ state := { s.state with currentZone := z }, currentZone := z },
            [Emit.zone_change z, Emit.play_transition z]) := by
  unfold checkZoneTransition
  by_cases h1 : s.state.fulfillment ≥ transcendenceThreshold ∧ s.currentZone ≠ Zone.TRANSCENDENCE
  · right
    refine ⟨Zone.TRANSCENDENCE, ?_, ?_⟩
    · cases hz : s.currentZone with
      | VOID => simp [zoneIdx]
      | AWAKENING => simp [zoneIdx]
      | TRANSCENDENCE => exact absurd hz h1.2
    · simp only [if_pos h1]
      rw [if_pos (Ne.symm h1.2)]
  · by_cases h2 : s.state.fulfillment ≥ awakeningThreshold ∧ s.currentZone = Zone.VOID
    · right
      refine ⟨Zone.AWAKENING, ?_, ?_⟩
      · rw [h2.2]; simp [zoneIdx]
      · simp only [if_neg h1, if_pos h2]
        have : Zone.AWAKENING ≠ s.currentZone := by rw [h2.2]; decide
        rw [if_pos this]
    · left
      simp only [if_neg h1, if_neg h2]
      rw [if_neg (by simp)]

/-- `update` decomposed into scalar accumulation, the zone check, and the
(unguarded) ending trigger. -/
theorem update_unfold (dt : ℚ) (s : NarrState) :
    update dt s =
      ((checkZoneTransition (updateScalars dt s)).1,
        (checkZoneTransition (updateScalars dt s)).2 ++
          (if (checkZoneTransition (updateScalars dt s)).1.state.fulfillment ≥ 1 ∨
              (checkZoneTransition (updateScalars dt s)).1.state.consciousness ≥ 1 then
            [Emit.ending (computeEnding (checkZoneTransition (updateScalars dt s)).1.state)
              (checkZoneTransition (updateScalars dt s)).1.state]
          else [])) := by
  unfold update updateScalars triggerEnding
  split <;> simp_all

/-- The zone check touches only the two zone fields. -/
theorem checkZoneTransition_state (s : NarrState) :
    (checkZoneTransition s).1.state.consciousness = s.state.consciousness ∧
      (checkZoneTransition s).1.state.fulfillment = s.state.fulfillment ∧
      (checkZoneTransition s).1.state.timeElapsed = s.state.timeElapsed ∧
      (checkZoneTransition s).1.state.choices = s.state.choices ∧
      (checkZoneTransition s).1.state.discoveredGlitches = s.state.discoveredGlitches := by
  rcases checkZoneTransition_cases s with h | ⟨z, _, h⟩ <;> rw [h] <;>
    exact ⟨rfl, rfl, rfl, rfl, rfl⟩

/-- How one `update` call changes the accumulator fields. -/
theorem update_state_fields (dt : ℚ) (s : NarrState) :
    (update dt s).1.state.consciousness = min 1 (s.state.consciousness + consciousnessRate) ∧
      (update dt s).1.state.fulfillment = min 1 (s.state.fulfillment + fulfillmentRate) ∧
      (update dt s).1.state.timeElapsed = s.state.timeElapsed + dt := by
  rw [update_unfold]
  have h := checkZoneTransition_state (updateScalars dt s)
  exact ⟨h.1, h.2.1, h.2.2.1⟩

/-- One `update` call keeps both scalars inside [0,1]. -/
theorem update_preserves_range (dt : ℚ) (s : NarrState) (h : scalarsInRange s) :
    scalarsInRange (update dt s).1 := by
  obtain ⟨h1, h2, h3, h4⟩ := h
  have hu := update_state_fields dt s
  have hcr : (0:ℚ) ≤ consciousnessRate := by norm_num [consciousnessRate]
  have hfr : (0:ℚ) ≤ fulfillmentRate := by norm_num [fulfillmentRate]
  refine ⟨?_, ?_, ?_, ?_⟩
  · rw [hu.1]; exact le_min (by norm_num) (by linarith)
  · rw [hu.1]; exact min_le_left _ _
  · rw [hu.2.1]; exact le_min (by norm_num) (by linarith)
  · rw [hu.2.1]; exact min_le_left _ _

/-- Any sequence of `update` calls preserves the scalar range invariant. -/
theorem run_updates_range (dts : List ℚ) :
    ∀ s : NarrState, scalarsInRange s → scalarsInRange (run (dts.map Op.update) s).1 := by
  induction dts with
  | nil => intro s h; exact h
  | cons d rest ih =>
    intro s h
    show scalarsInRange (run (rest.map Op.update) (update d s).1).1
    exact ih _ (update_preserves_range d s h)

/-! ### Claim theorems -/

/-- C1 (amended): starting from the all-zero initial state, for every
sequence of `update` calls with deltaTime ≥ 0, consciousness and fulfillment
lie in [0,1] after every operation (every prefix of such a sequence is again
such a sequence, so this covers every observation point).  `update` clamps
the scalars only from above and its per-call increments are positive, which
keeps them in range; `makeChoice` and `onGlitchDiscovered` perform no
re-clamping, so choice deltas and glitch increments can leave the range (see
the counterexample). -/
theorem narrative_scalars_range (dts : List ℚ) (_h : ∀ d ∈ dts, 0 ≤ d) :
    scalarsInRange (run (dts.map Op.update) initNarrState).1 :=
  run_updates_range dts initNarrState (by norm_num [scalarsInRange, initNarrState])

/-- Witness for C1: the amended statement at the concrete call sequence
`update 1; update 1/2`. -/
theorem narrative_scalars_range_witness :
    scalarsInRange (run ([1, 1/2].map Op.update) initNarrState).1 :=
  narrative_scalars_range [1, 1/2] (by norm_num)

/-- Counterexample to C1 as stated: the interleaving consisting of the
single catalog choice `accept_reality`, applied to the all-zero initial
state, drives consciousness to −0.1 — `makeChoice` does not re-clamp to
[0,1]. -/
theorem narrative_scalars_range_cex :
    ¬ scalarsInRange (run [Op.makeChoice "accept_reality"] initNarrState).1 := by
  intro h
  have hc : (run [Op.makeChoice "accept_reality"] initNarrState).1.state.consciousness
      = -(1/10) := by
    simp [run, step, makeChoice, availableChoices, choice_accept_reality,
      choice_reject_simulation, choice_transcend, choice_dissolve, initNarrState, List.find?]
  have h1 := h.1
  rw [hc] at h1
  exact absurd h1 (by norm_num)

/-- C9: a single `update dt` call adds exactly the configured rates 0.001
and 0.0005 to consciousness and fulfillment (then clamps at 1) for every
deltaTime — the scalar increments do not scale with `dt`; only `timeElapsed`
depends on `dt`, growing by exactly `dt` per call. -/
theorem update_fixed_increments (dt : ℚ) (s : NarrState) :
    (update dt s).1.state.consciousness = min 1 (s.state.consciousness + 1 / 1000) ∧
      (update dt s).1.state.fulfillment = min 1 (s.state.fulfillment + 1 / 2000) ∧
      (update dt s).1.state.timeElapsed = s.state.timeElapsed + dt := by
  have h := update_state_fields dt s
  rw [consciousnessRate] at h
  rw [fulfillmentRate] at h
  exact h

/-- C4 (amended): `makeChoice` with a choice id found in the catalog adds the
choice's consciousness and fulfillment deltas to the two scalars **without
re-clamping**, appends the id to the choice history (duplicates allowed),
leaves every other field unchanged, and emits exactly one choice-made event
carrying the choice and its consequences. -/
theorem makeChoice_applies_deltas (s : NarrState) (cid : String) (c : Choice)
    (h : availableChoices.find? (fun x => x.id == cid) = some c) :
    (makeChoice cid s).1.state.consciousness
        = s.state.consciousness + c.consequences.consciousness.getD 0 ∧
      (makeChoice cid s).1.state.fulfillment
        = s.state.fulfillment + c.consequences.fulfillment.getD 0 ∧
      (makeChoice cid s).1.state.choices = s.state.choices ++ [cid] ∧
      (makeChoice cid s).1.state.currentZone = s.state.currentZone ∧
      (makeChoice cid s).1.state.discoveredGlitches = s.state.discoveredGlitches ∧
      (makeChoice cid s).1.state.timeElapsed = s.state.timeElapsed ∧
      (makeChoice cid s).2 = [Emit.choice_made c c.consequences] := by
  unfold makeChoice
  rw [h]
  rcases hoc : c.consequences.consciousness with _ | d <;>
    rcases hof : c.consequences.fulfillment with _ | e <;>
      simp only [hoc, hof, Option.getD_none, Option.getD_some] <;>
        (try split_ifs) <;> simp_all

/-- Witness for C4: spec scenario 3 — `accept_reality` from
`{consciousness: 0.1, fulfillment: 0.1}` gives consciousness 0 (reached by
plain addition, not clamping), fulfillment 0.3, history `['accept_reality']`
and one choice-made event. -/
theorem makeChoice_applies_deltas_witness :
    (makeChoice "accept_reality" exampleTenthState).1.state.consciousness = 0 ∧
      (makeChoice "accept_reality" exampleTenthState).1.state.fulfillment = 3 / 10 ∧
      (makeChoice "accept_reality" exampleTenthState).1.state.choices = ["accept_reality"] ∧
      (makeChoice "accept_reality" exampleTenthState).2
        = [Emit.choice_made choice_accept_reality choice_accept_reality.consequences] := by
  obtain ⟨h1, h2, h3, _, _, _, h7⟩ :=
    makeChoice_applies_deltas exampleTenthState "accept_reality" choice_accept_reality (by rfl)
  refine ⟨?_, ?_, ?_, h7⟩
  · rw [h1]; norm_num [exampleTenthState, choice_accept_reality]
  · rw [h2]; norm_num [exampleTenthState, choice_accept_reality]
  · rw [h3]; rfl

/-- Counterexample to C4 as stated: the claim's re-clamping to [0,1] does
not happen — `accept_reality` from the all-zero initial state leaves
consciousness at −0.1, below the interval. -/
theorem makeChoice_applies_deltas_cex :
    (makeChoice "accept_reality" initNarrState).1.state.consciousness < 0 := by
  have hc : (makeChoice "accept_reality" initNarrState).1.state.consciousness = -(1/10) := by
    simp [makeChoice, availableChoices, choice_accept_reality, choice_reject_simulation,
      choice_transcend, choice_dissolve, initNarrState, List.find?]
  rw [hc]
  norm_num

/-- C5: `makeChoice` with a choice id absent from the static catalog is a
complete no-op: the whole state (both zone fields included) is returned
unchanged and no event is emitted. -/
theorem makeChoice_unknown_noop (s : NarrState) (cid : String)
    (h : ∀ c ∈ availableChoices, c.id ≠ cid) :
    makeChoice cid s = (s, []) := by
  unfold makeChoice
  have hfind : availableChoices.find? (fun c => c.id == cid) = none := by
    rw [List.find?_eq_none]
    intro c hc
    simpa using h c hc
  rw [hfind]

/-- Witness for C5: the unknown id `open_the_door` leaves the initial state
untouched and emits nothing. -/
theorem makeChoice_unknown_noop_witness :
    makeChoice "open_the_door" initNarrState = (initNarrState, []) :=
  makeChoice_unknown_noop initNarrState "open_the_door" (by decide)

/-- Running a concatenated operation sequence concatenates the traces. -/
theorem run_append (a b : List Op) :
    ∀ s : NarrState,
      run (a ++ b) s = ((run b (run a s).1).1, (run a s).2 ++ (run b (run a s).1).2) := by
  induction a with
  | nil => intro s; simp [run]
  | cons op rest ih => intro s; simp [run, ih, List.append_assoc]

/-- Effect of `n` consecutive glitch discoveries from an arbitrary state:
counter up by `n`, consciousness up by `n · 0.05` (no clamping), and one
event per call carrying the successive counter values. -/
theorem run_glitches (n : ℕ) (s : NarrState) :
    (run (List.replicate n Op.glitch) s).1.state.discoveredGlitches
        = s.state.discoveredGlitches + n ∧
      (run (List.replicate n Op.glitch) s).1.state.consciousness
        = s.state.consciousness + (n : ℚ) * (1 / 20) ∧
      (run (List.replicate n Op.glitch) s).2
        = (List.range n).map
            (fun i => Emit.glitch_discovered (s.state.discoveredGlitches + i + 1)) := by
  induction n with
  | zero => refine ⟨?_, ?_, ?_⟩ <;> simp [run]
  | succ m ih =>
    obtain ⟨ih1, ih2, ih3⟩ := ih
    rw [List.replicate_succ', run_append]
    refine ⟨?_, ?_, ?_⟩
    · simp only [run, step, onGlitchDiscovered]
      simp only [ih1]
      omega
    · simp only [run, step, onGlitchDiscovered]
      simp only [ih2]
      push_cast
      ring
    · simp only [run, step, onGlitchDiscovered, List.range_succ, List.map_append]
      simp only [ih1, ih3]
      simp

/-- Ending emissions add over concatenated traces. -/
theorem countEnding_append (a b : List Emit) :
    countEnding (a ++ b) = countEnding a + countEnding b := by
  simp [countEnding, List.filter_append]

/-- The zone check never emits an ending event. -/
theorem countEnding_checkZoneTransition (s : NarrState) :
    countEnding (checkZoneTransition s).2 = 0 := by
  rcases checkZoneTransition_cases s with h | ⟨z, _, h⟩ <;> rw [h] <;> rfl

/-- An `update` on a saturated state emits exactly one ending event and
leaves the state saturated — `triggerEnding` is unguarded, so the next
`update` will emit again. -/
theorem update_saturated (s : NarrState) (dt : ℚ)
    (h : 1 ≤ s.state.consciousness ∨ 1 ≤ s.state.fulfillment) :
    countEnding (update dt s).2 = 1 ∧
      (1 ≤ (update dt s).1.state.consciousness ∨ 1 ≤ (update dt s).1.state.fulfillment) := by
  rw [update_unfold]
  have hst := checkZoneTransition_state (updateScalars dt s)
  have hcr : (0:ℚ) ≤ consciousnessRate := by norm_num [consciousnessRate]
  have hfr : (0:ℚ) ≤ fulfillmentRate := by norm_num [fulfillmentRate]
  have hcond : (checkZoneTransition (updateScalars dt s)).1.state.fulfillment ≥ 1 ∨
      (checkZoneTransition (updateScalars dt s)).1.state.consciousness ≥ 1 := by
    rcases h with h | h
    · right
      rw [hst.1]
      exact le_min le_rfl (by linarith)
    · left
      rw [hst.2.1]
      exact le_min le_rfl (by linarith)
  rw [if_pos hcond]
  refine ⟨?_, ?_⟩
  · show countEnding ((checkZoneTransition (updateScalars dt s)).2 ++ _) = 1
    rw [countEnding_append, countEnding_checkZoneTransition]
    rfl
  · show 1 ≤ (checkZoneTransition (updateScalars dt s)).1.state.consciousness ∨
      1 ≤ (checkZoneTransition (updateScalars dt s)).1.state.fulfillment
    rcases hcond with h' | h'
    · exact Or.inr h'
    · exact Or.inl h'

/-- C6 (amended): from the all-zero initial state, N glitch discoveries give
`discoveredGlitches = N` and `consciousness = 0.05·N` — with **no** clamping
at 1 (see the counterexample at N = 21) — and each call emits one
glitch-discovered event carrying the new counter value. -/
theorem glitch_accumulation (n : ℕ) (_h : 1 ≤ n) :
    (run (List.replicate n Op.glitch) initNarrState).1.state.discoveredGlitches = n ∧
      (run (List.replicate n Op.glitch) initNarrState).1.state.consciousness
        = (n : ℚ) * (1 / 20) ∧
      (run (List.replicate n Op.glitch) initNarrState).2
        = (List.range n).map (fun i => Emit.glitch_discovered (i + 1)) := by
  obtain ⟨h1, h2, h3⟩ := run_glitches n initNarrState
  refine ⟨?_, ?_, ?_⟩
  · rw [h1]; simp [initNarrState]
  · rw [h2]; norm_num [initNarrState]
  · rw [h3]; simp [initNarrState]

/-- Witness for C6: spec scenario 6 — three glitches from zero give counter
3, consciousness 0.15, and the events numbered 1, 2, 3. -/
theorem glitch_accumulation_witness :
    (run (List.replicate 3 Op.glitch) initNarrState).1.state.discoveredGlitches = 3 ∧
      (run (List.replicate 3 Op.glitch) initNarrState).1.state.consciousness = 3 / 20 ∧
      (run (List.replicate 3 Op.glitch) initNarrState).2
        = [Emit.glitch_discovered 1, Emit.glitch_discovered 2, Emit.glitch_discovered 3] := by
  obtain ⟨h1, h2, h3⟩ := glitch_accumulation 3 (by norm_num)
  refine ⟨h1, ?_, ?_⟩
  · rw [h2]; norm_num
  · rw [h3]; rfl

/-- The source's fallback chain (REBELLION, ACCEPTANCE, TRANSCENDENCE,
DISSOLUTION in that probing order) computes the same function as the
specification's chain (TRANSCENDENCE first): the three guarded cases are
mutually exclusive. -/
theorem defaultEnding_eq_spec (c f : ℚ) : defaultEnding c f = spec_fallbackEnding c f := by
  unfold defaultEnding spec_fallbackEnding
  by_cases h1 : c > 8/10 ∧ f < 5/10
  · have hT : ¬(c > 8/10 ∧ f > 8/10) := by rintro ⟨_, hf⟩; linarith [h1.2]
    rw [if_pos h1, if_neg hT, if_pos h1]
  · rw [if_neg h1]
    by_cases h2 : f > 8/10 ∧ c < 5/10
    · have hT : ¬(c > 8/10 ∧ f > 8/10) := by rintro ⟨hc, _⟩; linarith [h2.2]
      rw [if_pos h2, if_neg hT, if_neg h1, if_pos h2]
    · rw [if_neg h2]
      by_cases h3 : c > 8/10 ∧ f > 8/10
      · rw [if_pos h3, if_pos h3]
      · rw [if_neg h3, if_neg h3, if_neg h1, if_neg h2]

/-- C3: the resolved ending is the implied ending of the most recent
recorded choice when that choice exists in the catalog and carries one;
otherwise it is determined solely from the (consciousness, fulfillment) pair
by the specification's threshold rule (both > 0.8 → TRANSCENDENCE;
consciousness > 0.8 ∧ fulfillment < 0.5 → REBELLION; fulfillment > 0.8 ∧
consciousness < 0.5 → ACCEPTANCE; otherwise DISSOLUTION). -/
theorem ending_resolution_rule (st : PlayerState) :
    (∀ c e, lookupLastChoice st = some c → c.consequences.ending = some e →
        computeEnding st = e) ∧
      (lookupLastChoice st = none →
        computeEnding st = spec_fallbackEnding st.consciousness st.fulfillment) ∧
      (∀ c, lookupLastChoice st = some c → c.consequences.ending = none →
        computeEnding st = spec_fallbackEnding st.consciousness st.fulfillment) := by
  refine ⟨?_, ?_, ?_⟩
  · intro c e hl he
    simp [computeEnding, hl, he]
  · intro hl
    simp [computeEnding, hl, defaultEnding_eq_spec]
  · intro c hl he
    simp [computeEnding, hl, he, defaultEnding_eq_spec]

/-- Witness for C3: the last choice `transcend` forces TRANSCENDENCE
(spec scenario 4), and with an empty history, consciousness 0.9 and
fulfillment 0.3 the fallback rule yields REBELLION (spec scenario 5). -/
theorem ending_resolution_rule_witness :
    computeEnding exampleTranscendState = Ending.TRANSCENDENCE ∧
      computeEnding exampleRebellionState = Ending.REBELLION := by
  constructor
  · exact (ending_resolution_rule exampleTranscendState).1 choice_transcend
      Ending.TRANSCENDENCE (by rfl) (by rfl)
  · have h := (ending_resolution_rule exampleRebellionState).2.1 (by rfl)
    rw [h]
    norm_num [spec_fallbackEnding, exampleRebellionState]

/-- C8: the offering is a zone-dependent contiguous window of the catalog in
catalog order — VOID gets entries 0 and 1, AWAKENING entries 1 and 2,
TRANSCENDENCE all four. -/
theorem available_choices_window (s : NarrState) :
    (s.currentZone = Zone.VOID →
        getAvailableChoices s = [choice_accept_reality, choice_reject_simulation]) ∧
      (s.currentZone = Zone.AWAKENING →
        getAvailableChoices s = [choice_reject_simulation, choice_transcend]) ∧
      (s.currentZone = Zone.TRANSCENDENCE →
        getAvailableChoices s =
          [choice_accept_reality, choice_reject_simulation, choice_transcend,
            choice_dissolve]) := by
  refine ⟨?_, ?_, ?_⟩ <;> intro h <;> simp [getAvailableChoices, h, availableChoices]

/-- Witness for C8: the freshly constructed system (zone VOID) offers
exactly the first two catalog entries. -/
theorem available_choices_window_witness :
    getAvailableChoices initNarrState = [choice_accept_reality, choice_reject_simulation] :=
  (available_choices_window initNarrState).1 rfl

/-- C10: `getMessage` equals the specification's Message Selector — a
function of fulfillment and timeElapsed alone, with bands split at
0.3 / 0.6 / 0.9 and, inside the first three bands, the list entry at index
`floor(timeElapsed / 5) mod (list length)`, so the text changes every 5
simulated seconds. -/
theorem message_selector_spec (st : PlayerState) :
    getMessage st = spec_currentMessage st.fulfillment st.timeElapsed := by
  unfold getMessage spec_currentMessage bandMessage
  rfl

/-- C2 (amended): ending resolution is **not** one-shot.  Every `update`
call on a saturated state (consciousness ≥ 1 or fulfillment ≥ 1) emits
exactly one `narrative:ending` event and leaves the state saturated, so each
further `update` call after the first resolution emits one more ending
event — the event is emitted once per update, not exactly once in total. -/
theorem ending_reemitted_each_update (s : NarrState) (dt : ℚ)
    (h : 1 ≤ s.state.consciousness ∨ 1 ≤ s.state.fulfillment) :
    countEnding (update dt s).2 = 1 ∧
      (1 ≤ (update dt s).1.state.consciousness ∨ 1 ≤ (update dt s).1.state.fulfillment) :=
  update_saturated s dt h

/-- Witness for C2: an `update 7` on a state with consciousness 1 emits one
ending event and keeps the state saturated. -/
theorem ending_reemitted_each_update_witness :
    countEnding (update 7 exampleSaturatedState).2 = 1 ∧
      (1 ≤ (update 7 exampleSaturatedState).1.state.consciousness ∨
        1 ≤ (update 7 exampleSaturatedState).1.state.fulfillment) :=
  ending_reemitted_each_update exampleSaturatedState 7
    (Or.inl (by norm_num [exampleSaturatedState]))

/-- Counterexample to C2 as stated: four `transcend` choices from the
initial state saturate both scalars; the next `update` resolves the ending
(one event), and the `update` after that — a further update call after the
first resolution — emits an additional ending event instead of none. -/
theorem ending_reemitted_cex :
    countEnding
        (update 0 (run (List.replicate 4 (Op.makeChoice "transcend")) initNarrState).1).2 = 1 ∧
      countEnding
        (update 0
          (update 0 (run (List.replicate 4 (Op.makeChoice "transcend")) initNarrState).1).1).2
        = 1 := by
  have hsat :
      1 ≤ (run (List.replicate 4 (Op.makeChoice "transcend")) initNarrState).1.state.consciousness := by
    simp [run, step, makeChoice, availableChoices, choice_accept_reality,
      choice_reject_simulation, choice_transcend, choice_dissolve, initNarrState, List.find?]
    norm_num
  have h1 := update_saturated _ 0 (Or.inl hsat)
  exact ⟨h1.1, (update_saturated _ 0 h1.2).1⟩

/-- `makeChoice` never touches the cached zone. -/
theorem makeChoice_currentZone (cid : String) (s : NarrState) :
    (makeChoice cid s).1.currentZone = s.currentZone := by
  unfold makeChoice
  rcases h : availableChoices.find? (fun c => c.id == cid) with _ | c <;> simp [h]

/-- No single operation ever lowers the cached zone. -/
theorem step_zone_mono (s : NarrState) (op : Op) :
    zoneIdx s.currentZone ≤ zoneIdx (step s op).1.currentZone := by
  cases op with
  | update dt =>
    show zoneIdx s.currentZone ≤ zoneIdx (update dt s).1.currentZone
    rw [update_unfold]
    rcases checkZoneTransition_cases (updateScalars dt s) with h | ⟨z, hlt, h⟩
    · rw [h]
      exact le_rfl
    · rw [h]
      exact le_of_lt hlt
  | makeChoice cid =>
    show zoneIdx s.currentZone ≤ zoneIdx (makeChoice cid s).1.currentZone
    rw [makeChoice_currentZone]
  | glitch => exact le_rfl

/-- One operation emits at most one zone-change event for any given zone,
and when it does, the transition was strictly upward and landed on exactly
that zone. -/
theorem step_zone_events (s : NarrState) (op : Op) (z : Zone) :
    List.count (Emit.zone_change z) (step s op).2 ≤ 1 ∧
      (Emit.zone_change z ∈ (step s op).2 →
        zoneIdx s.currentZone < zoneIdx z ∧ (step s op).1.currentZone = z) := by
  cases op with
  | update dt =>
    show List.count (Emit.zone_change z) (update dt s).2 ≤ 1 ∧
      (Emit.zone_change z ∈ (update dt s).2 →
        zoneIdx s.currentZone < zoneIdx z ∧ (update dt s).1.currentZone = z)
    rw [update_unfold]
    rcases checkZoneTransition_cases (updateScalars dt s) with h | ⟨w, hlt, h⟩ <;> rw [h] <;>
      constructor
    · split <;> simp
    · split <;> simp
    · by_cases hw : w = z <;> split <;> simp [hw, List.count_cons]
    · intro hm
      have hz : z = w := by
        rcases List.mem_append.mp hm with hm' | hm'
        · simpa using hm'
        · revert hm'
          split <;> simp
      subst hz
      exact ⟨hlt, rfl⟩
  | makeChoice cid =>
    show List.count (Emit.zone_change z) (makeChoice cid s).2 ≤ 1 ∧
      (Emit.zone_change z ∈ (makeChoice cid s).2 → _)
    unfold makeChoice
    rcases h : availableChoices.find? (fun c => c.id == cid) with _ | c <;> simp [h]
  | glitch => simp [step, onGlitchDiscovered]

/-- Once the cached zone is at or above `z`, a run emits no zone-change
event for `z`. -/
theorem run_no_zc_from (ops : List Op) :
    ∀ (s : NarrState) (z : Zone), zoneIdx z ≤ zoneIdx s.currentZone →
      List.count (Emit.zone_change z) (run ops s).2 = 0 := by
  induction ops with
  | nil => intro s z _; simp [run]
  | cons op rest ih =>
    intro s z h
    show List.count (Emit.zone_change z) ((step s op).2 ++ (run rest (step s op).1).2) = 0
    rw [List.count_append]
    have h1 : List.count (Emit.zone_change z) (step s op).2 = 0 := by
      rw [List.count_eq_zero]
      intro hm
      have := ((step_zone_events s op z).2 hm).1
      omega
    have h2 : List.count (Emit.zone_change z) (run rest (step s op).1).2 = 0 :=
      ih _ z (le_trans h (step_zone_mono s op))
    omega

/-- The cached zone is non-decreasing along any run. -/
theorem run_zone_mono (ops : List Op) :
    ∀ s : NarrState, zoneIdx s.currentZone ≤ zoneIdx (run ops s).1.currentZone := by
  induction ops with
  | nil => intro s; exact le_rfl
  | cons op rest ih =>
    intro s
    exact le_trans (step_zone_mono s op) (ih (step s op).1)

/-- Any run emits at most one zone-change event per target zone. -/
theorem run_zc_le_one (ops : List Op) :
    ∀ (s : NarrState) (z : Zone),
      List.count (Emit.zone_change z) (run ops s).2 ≤ 1 := by
  induction ops with
  | nil => intro s z; simp [run]
  | cons op rest ih =>
    intro s z
    show List.count (Emit.zone_change z) ((step s op).2 ++ (run rest (step s op).1).2) ≤ 1
    rw [List.count_append]
    by_cases hm : Emit.zone_change z ∈ (step s op).2
    · obtain ⟨_, hpost⟩ := (step_zone_events s op z).2 hm
      have h2 : List.count (Emit.zone_change z) (run rest (step s op).1).2 = 0 :=
        run_no_zc_from rest (step s op).1 z (le_of_eq (congrArg zoneIdx hpost.symm))
      have h1 := (step_zone_events s op z).1
      omega
    · have h1 : List.count (Emit.zone_change z) (step s op).2 = 0 :=
        List.count_eq_zero.mpr hm
      have h2 := ih (step s op).1 z
      omega

/-- C7: under the ordering VOID < AWAKENING < TRANSCENDENCE (captured by
`zoneIdx`), the current zone never decreases across any operation sequence
(`checkZoneTransition` only ever moves upward, even when fulfillment later
drops below a threshold), and any given zone's `zone_change` event is
emitted at most once in a whole run — repeated updates after a crossing emit
no further event for that zone. -/
theorem zone_monotone_unique_events :
    (∀ (ops : List Op) (s : NarrState),
        zoneIdx s.currentZone ≤ zoneIdx (run ops s).1.currentZone) ∧
      ∀ (ops : List Op) (s : NarrState) (z : Zone),
        List.count (Emit.zone_change z) (run ops s).2 ≤ 1 :=
  ⟨fun ops s => run_zone_mono ops s, fun ops s z => run_zc_le_one ops s z⟩

/-- Counterexample to C6 as stated: at N = 21 the code's consciousness is
1.05, not `min(1, 0.05·21) = 1` — `onGlitchDiscovered` never clamps. -/
theorem glitch_accumulation_cex :
    (run (List.replicate 21 Op.glitch) initNarrState).1.state.consciousness
      ≠ min 1 ((1 / 20 : ℚ) * 21) := by
  obtain ⟨_, h2, _⟩ := run_glitches 21 initNarrState
  have hmin : min (1 : ℚ) ((1 / 20) * 21) = 1 := min_eq_left (by norm_num)
  rw [h2, hmin]
  norm_num [initNarrState]

end Potato
